import Mathlib

/-!
Verification development for the gateway session & request-correlation engine
of the openclaw-whisper backend (server entry point).

The server keeps three pieces of process-wide mutable state next to the
gateway WebSocket handle: `pendingRequests` (request-id keyed completion
sinks with a per-entry timer), `activeRuns` (run/request-id keyed streaming
accumulators) and `wsClients` (downstream push listeners).  The definitions
below are a shallow embedding of that state and of the functions
`getSessionKey`, `broadcastToClients`, `connectToGateway` (its event
handlers), `handleGatewayMessage`, `sendToGateway`, the `/api/chat`,
`/api/send`, `/api/sessions` registration paths, the per-entry timeout
callbacks, and the `/api/session/reset` handler.

JavaScript `Map` objects are modelled as association lists with
occurrence-replacing insertion; JS string truthiness (empty string is falsy)
is modelled by `truthy`; optional/absent object fields are `Option`s.
-/

/-! ### Association-list model of a JS Map -/

def findEntry {β : Type} (m : List (String × β)) (k : String) : Option β :=
  match m with
  | [] => none
  | (k', v) :: rest => if k' = k then some v else findEntry rest k

def eraseEntry {β : Type} (m : List (String × β)) (k : String) : List (String × β) :=
  m.filter (fun p => decide (p.1 ≠ k))

def setEntry {β : Type} (m : List (String × β)) (k : String) (v : β) :
    List (String × β) :=
  (k, v) :: eraseEntry m k

theorem eraseEntry_cons_self {β : Type} (a : String) (b : β) (rest : List (String × β)) :
    eraseEntry ((a, b) :: rest) a = eraseEntry rest a := by
  simp [eraseEntry, List.filter]

theorem eraseEntry_cons_ne {β : Type} (a : String) (b : β) (rest : List (String × β))
    (k : String) (h : a ≠ k) :
    eraseEntry ((a, b) :: rest) k = (a, b) :: eraseEntry rest k := by
  simp [eraseEntry, List.filter, h]

theorem findEntry_eraseEntry {β : Type} (m : List (String × β)) (k k' : String) :
    findEntry (eraseEntry m k) k' = if k' = k then none else findEntry m k' := by
  induction m with
  | nil => simp [findEntry, eraseEntry]
  | cons p rest ih =>
    obtain ⟨a, b⟩ := p
    by_cases hak : a = k
    · subst hak
      rw [eraseEntry_cons_self, ih]
      by_cases hk' : k' = a
      · simp [hk']
      · have hak' : ¬ a = k' := fun hh => hk' hh.symm
        simp [hk', findEntry, hak']
    · rw [eraseEntry_cons_ne a b rest k hak]
      by_cases hk'a : a = k'
      · rw [← hk'a]
        simp [findEntry, hak]
      · simp [findEntry, hk'a, ih]

theorem findEntry_setEntry {β : Type} (m : List (String × β)) (k k' : String) (v : β) :
    findEntry (setEntry m k v) k' = if k' = k then some v else findEntry m k' := by
  by_cases h : k' = k
  · subst h; simp [setEntry, findEntry]
  · have hk : ¬ k = k' := fun hh => h hh.symm
    simp [setEntry, findEntry, hk, findEntry_eraseEntry, h]

/-! ### Decimal printing (`Nat.repr`) is injective

The session key suffix is interpolated into the key with JS template-string
decimal printing, modelled by `Nat.repr`.  Distinctness of the keys of
different generations reduces to injectivity of `Nat.repr`, proved here via
the fuel-free recursion `decRepr`.
-/

def decRepr (n : Nat) : List Char :=
  if _h : n < 10 then [Nat.digitChar n]
  else decRepr (n / 10) ++ [Nat.digitChar (n % 10)]
decreasing_by
  exact Nat.div_lt_self (by omega) (by omega)

theorem decRepr_eq (n : Nat) :
    decRepr n = if n < 10 then [Nat.digitChar n]
                else decRepr (n / 10) ++ [Nat.digitChar (n % 10)] := by
  rw [decRepr]
  split <;> simp_all

theorem decRepr_ne_nil (n : Nat) : decRepr n ≠ [] := by
  rw [decRepr_eq]
  split <;> simp

theorem toDigitsCore_eq_decRepr (fuel n : Nat) (acc : List Char) (h : n < fuel) :
    Nat.toDigitsCore 10 fuel n acc = decRepr n ++ acc := by
  induction fuel generalizing n acc with
  | zero => omega
  | succ f ih =>
    rw [Nat.toDigitsCore]
    by_cases hz : n / 10 = 0
    · have hlt : n < 10 := by omega
      rw [decRepr_eq n, if_pos hlt, Nat.mod_eq_of_lt hlt] at *
      simp [hz]
    · have hge : 10 ≤ n := by
        by_contra hc
        exact hz (Nat.div_eq_of_lt (by omega))
      have hfuel : n / 10 < f := by
        have := Nat.div_lt_self (show 0 < n by omega) (show 1 < 10 by omega)
        omega
      simp only [hz, if_false]
      rw [ih (n / 10) _ hfuel, decRepr_eq n, if_neg (by omega)]
      simp

theorem digitChar_inj_lt10 : ∀ a < 10, ∀ b < 10, Nat.digitChar a = Nat.digitChar b → a = b := by
  decide

theorem decRepr_injective : ∀ m n : Nat, decRepr m = decRepr n → m = n := by
  intro m
  induction m using Nat.strong_induction_on with
  | _ m ih =>
    intro n h
    by_cases hm : m < 10
    · by_cases hn : n < 10
      · rw [decRepr_eq m, if_pos hm, decRepr_eq n, if_pos hn] at h
        exact digitChar_inj_lt10 m hm n hn (by injection h)
      · rw [decRepr_eq m, if_pos hm, decRepr_eq n, if_neg hn] at h
        cases hd : decRepr (n / 10) with
        | nil => exact absurd hd (decRepr_ne_nil (n / 10))
        | cons c cs => rw [hd] at h; simp at h
    · by_cases hn : n < 10
      · rw [decRepr_eq m, if_neg hm, decRepr_eq n, if_pos hn] at h
        cases hd : decRepr (m / 10) with
        | nil => exact absurd hd (decRepr_ne_nil (m / 10))
        | cons c cs => rw [hd] at h; simp at h
      · rw [decRepr_eq m, if_neg hm, decRepr_eq n, if_neg hn] at h
        have hparts := List.append_inj' h (by simp)
        have hdiv : m / 10 = n / 10 := by
          have hlt : m / 10 < m := Nat.div_lt_self (by omega) (by omega)
          exact ih (m / 10) hlt (n / 10) hparts.1
        have hmod : m % 10 = n % 10 := by
          have hh := hparts.2
          simp at hh
          exact digitChar_inj_lt10 _ (Nat.mod_lt _ (by omega)) _ (Nat.mod_lt _ (by omega)) hh
        omega

theorem natRepr_eq_decRepr (n : Nat) : (Nat.repr n).data = decRepr n := by
  show (Nat.toDigits 10 n).asString.data = decRepr n
  have h : Nat.toDigits 10 n = decRepr n := by
    unfold Nat.toDigits
    rw [toDigitsCore_eq_decRepr (n + 1) n [] (by omega)]
    simp
  simp [List.asString, h]

theorem natRepr_injective : ∀ m n : Nat, Nat.repr m = Nat.repr n → m = n := by
  intro m n h
  apply decRepr_injective
  rw [← natRepr_eq_decRepr, ← natRepr_eq_decRepr, h]

theorem natRepr_length_pos (n : Nat) : 0 < (Nat.repr n).length := by
  show 0 < (Nat.repr n).data.length
  rw [natRepr_eq_decRepr]
  cases hd : decRepr n with
  | nil => exact absurd hd (decRepr_ne_nil n)
  | cons c cs => simp

/-! ### Data model

Mirrors the server module state: `gatewayWs` (`some b` when a WebSocket
handle exists, with `b` true exactly when `readyState === OPEN`; `none`
after the close handler nulls it), `isConnecting`, `sessionKeySuffix`,
`pendingRequests`, `activeRuns`, `wsClients`.
-/

structure EventData where
  phase : Option String := none
  text : Option String := none
deriving DecidableEq, Repr

structure Payload where
  ptype : Option String := none
  nonce : Option String := none
  runId : Option String := none
  stream : Option String := none
  data : Option EventData := none
  sessionKey : Option String := none
deriving DecidableEq, Repr

structure GatewayMessage where
  type : Option String := none
  event : Option String := none
  id : Option String := none
  ok : Bool := false
  error : Option String := none
  result : Option Payload := none
  payload : Option Payload := none
  response : Option String := none
deriving DecidableEq, Repr

/-- JS truthiness for an optional string field: absent and `""` are falsy. -/
def truthy (o : Option String) : Bool := decide (o.getD "" ≠ "")

/-- Which call site registered a pending request; determines its timeout
callback (`sendToGateway`, `/api/chat`, `/api/send`, `/api/sessions`,
`/api/sessions/:sessionKey/history`). -/
inductive SinkKind
  | gatewaySend
  | apiChat
  | apiSend
  | apiSessions
  | apiHistory
deriving DecidableEq, Repr

/-- A `pendingRequests` entry: the completion sink is identified by the
request id it is registered under; `deadline` is the absolute expiry time of
the entry's own timer.  The timer is armed exactly while the entry is in the
map (the response path calls `clearTimeout` as it deletes the entry, and a
timer that fires deletes its own entry). -/
structure PendingRequest where
  kind : SinkKind
  deadline : Nat
deriving DecidableEq, Repr

structure ActiveRun where
  taskId : String
  text : String
deriving DecidableEq, Repr

/-- A downstream push-channel listener (`wsClients` member). -/
structure Client where
  cid : Nat
  isOpen : Bool
deriving DecidableEq, Repr

structure ServerState where
  gatewayWs : Option Bool := none
  isConnecting : Bool := false
  sessionKeySuffix : Nat := 0
  pendingRequests : List (String × PendingRequest) := []
  activeRuns : List (String × ActiveRun) := []
  wsClients : List Client := []
deriving DecidableEq, Repr

/-- Outbound frame written on the gateway socket (the fields the server
actually populates for `connect` and `chat.send` / `sessions.list` /
`chat.history` requests). -/
structure OutFrame where
  id : String
  method : String
  sessionKey : Option String := none
  message : Option String := none
  idempotencyKey : Option String := none
deriving DecidableEq, Repr

/-- Value a pending request's `resolve` sink is fulfilled with:
`message.result || message.payload`, else `message.response`, else the
constant `'Request processed'`. -/
inductive ResValue
  | payload (p : Payload)
  | text (s : String)
  | fallback
deriving DecidableEq, Repr

/-- Observable actions of the dispatch and timer paths. -/
inductive Effect
  | send (f : OutFrame)
  | resolve (id : String) (v : ResValue)
  | reject (id : String) (e : String)
  | broadcast (taskId : String) (text : String)
  | scheduleReconnect (ms : Nat)
deriving DecidableEq, Repr

/-! ### SessionKeyspace -/

def SESSION_KEY : String := "whisper-voice:ET"

def getSessionKey (sessionKeySuffix : Nat) : String :=
  if sessionKeySuffix = 0 then SESSION_KEY
  else SESSION_KEY ++ ":" ++ Nat.repr sessionKeySuffix

/-- The key an inbound agent event's `sessionKey` is compared against when no
local run exists for its run id. -/
def normalizedSessionKey (sessionKeySuffix : Nat) : String :=
  "agent:main:" ++ (getSessionKey sessionKeySuffix).toLower

/-- The `/api/session/reset` handler: increments the suffix, clears all
tracked runs, and responds with the new session key. -/
def resetSession (st : ServerState) : ServerState × String :=
  ({ st with sessionKeySuffix := st.sessionKeySuffix + 1, activeRuns := [] },
   getSessionKey (st.sessionKeySuffix + 1))

/-! ### ConnectionSupervisor -/

/-- The `connectToGateway` fast path: no-op while a connect attempt is in
progress or an open handle exists, otherwise constructs a new socket
(`CONNECTING`, not yet open). -/
def connectToGateway (st : ServerState) : ServerState :=
  if st.isConnecting ∨ st.gatewayWs = some true then st
  else { st with isConnecting := true, gatewayWs := some false }

/-- The socket `open` event: the transport becomes open and the handler
clears `isConnecting`. -/
def onGatewayOpen (st : ServerState) : ServerState :=
  { st with isConnecting := false, gatewayWs := some true }

/-- The socket `error` handler: logs and clears `isConnecting` only. -/
def onGatewayError (st : ServerState) : ServerState × List Effect :=
  ({ st with isConnecting := false }, [])

/-- The socket `close` handler: nulls the handle, clears `isConnecting`, and
schedules `connectToGateway` after 5000 ms. -/
def onGatewayClose (st : ServerState) : ServerState × List Effect :=
  ({ st with gatewayWs := none, isConnecting := false },
   [Effect.scheduleReconnect 5000])

/-- The `catch` around socket construction: clears `isConnecting` and
schedules a reconnect after 5000 ms. -/
def onConnectException (st : ServerState) : ServerState × List Effect :=
  ({ st with isConnecting := false }, [Effect.scheduleReconnect 5000])

/-! ### Broadcaster -/

/-- `JSON.stringify` of the `{type:'result', taskId, text}` push message. -/
def serializeResult (taskId text : String) : String :=
  "\x7b\"type\":\"result\",\"taskId\":\"" ++ taskId ++
    "\",\"text\":\"" ++ text ++ "\"\x7d"

/-- `broadcastToClients`: serialize once, then write the same bytes to every
listener whose socket is open; listeners that are not open are skipped and
the set itself is not modified. -/
def broadcastToClients (clients : List Client) (data : String) :
    List (Nat × String) :=
  clients.filterMap (fun c => if c.isOpen then some (c.cid, data) else none)

/-- A publish step over the server state: pure with respect to `wsClients`. -/
def publishResult (st : ServerState) (taskId text : String) :
    ServerState × List (Nat × String) :=
  (st, broadcastToClients st.wsClients (serializeResult taskId text))

/-- The `wss.on('connection')` close handler for one listener. -/
def onClientClose (st : ServerState) (c : Client) : ServerState :=
  { st with wsClients := st.wsClients.filter (fun c' => decide (c' ≠ c)) }

/-! ### Correlator / RunTracker dispatch (`handleGatewayMessage`) -/

/-- The `connect` handshake request written in reply to a
`connect.challenge` event; its id is `connect_` + `Date.now()`. -/
def connectFrame (now : Nat) : OutFrame :=
  { id := "connect_" ++ Nat.repr now, method := "connect" }

/-- The `chat.send` request frame. -/
def chatSendFrame (requestId sessionKey message : String) : OutFrame :=
  { id := requestId, method := "chat.send", sessionKey := some sessionKey,
    message := some message, idempotencyKey := some requestId }

/-- The branch of `handleGatewayMessage` that handles a frame whose `id`
matches a pending request: cancel the entry's timer, delete the entry, then
reject on an error payload, otherwise re-key a request-id-keyed run to the
response's `runId` (when both exist) and resolve with
`result || payload || response || 'Request processed'`. -/
def handleResponse (st : ServerState) (m : GatewayMessage) (i : String) :
    ServerState × List Effect :=
  let st1 : ServerState :=
    { st with pendingRequests := eraseEntry st.pendingRequests i }
  if truthy m.error then
    (st1, [Effect.reject i (m.error.getD "")])
  else
    let result : Option Payload := m.result <|> m.payload
    let st2 : ServerState :=
      match result.bind Payload.runId, findEntry st.activeRuns i with
      | some rid, some run =>
        if rid ≠ "" then
          { st1 with activeRuns := setEntry (eraseEntry st.activeRuns i) rid run }
        else st1
      | _, _ => st1
    let v : ResValue :=
      match result with
      | some r => ResValue.payload r
      | none =>
        if truthy m.response then ResValue.text (m.response.getD "")
        else ResValue.fallback
    (st2, [Effect.resolve i v])

/-- The agent streaming-event branch of `handleGatewayMessage`.  An unknown
run id is admitted only for a lifecycle `start` event whose `sessionKey`
equals the normalized current session key; a known run has its text replaced
by an assistant event's payload and is finalized and deleted by a lifecycle
`end` event, broadcasting the accumulated text (or the `'Task completed'`
placeholder when it is empty). -/
def handleAgent (st : ServerState) (m : GatewayMessage) (freshTaskId : String) :
    ServerState × List Effect :=
  let p : Payload := m.payload.getD {}
  if truthy p.runId = false then (st, [])
  else
    let rid := p.runId.getD ""
    let preRun := findEntry st.activeRuns rid
    let created : Option ActiveRun :=
      match preRun with
      | some r => some r
      | none =>
        if truthy p.sessionKey = true ∧
           p.sessionKey = some (normalizedSessionKey st.sessionKeySuffix) ∧
           p.stream = some "lifecycle" ∧
           (p.data.getD {}).phase = some "start" then
          some { taskId := freshTaskId, text := "" }
        else none
    match created with
    | none => (st, [])
    | some run =>
      let stC : ServerState :=
        if preRun.isSome then st
        else { st with activeRuns := setEntry st.activeRuns rid run }
      if p.stream = some "assistant" ∧ truthy ((p.data.getD {}).text) = true then
        ({ stC with activeRuns :=
            setEntry stC.activeRuns rid { run with text := (p.data.getD {}).text.getD "" } },
         [])
      else if p.stream = some "lifecycle" ∧ (p.data.getD {}).phase = some "end" then
        ({ stC with activeRuns := eraseEntry stC.activeRuns rid },
         [Effect.broadcast run.taskId (if run.text = "" then "Task completed" else run.text)])
      else (stC, [])

/-- `handleGatewayMessage`: ignore heartbeats, answer challenges, route
frames with a pending id to `handleResponse`, route agent events to
`handleAgent`; anything else (including the logged `hello-ok`
acknowledgement) leaves the state unchanged. -/
def handleGatewayMessage (st : ServerState) (m : GatewayMessage) (now : Nat)
    (freshTaskId : String) : ServerState × List Effect :=
  if m.type = some "event" ∧ (m.event = some "tick" ∨ m.event = some "health") then
    (st, [])
  else if m.type = some "event" ∧ m.event = some "connect.challenge" then
    if truthy (m.payload.bind Payload.nonce) = true ∧ st.gatewayWs = some true then
      (st, [Effect.send (connectFrame now)])
    else (st, [])
  else if truthy m.id = true ∧ (findEntry st.pendingRequests (m.id.getD "")).isSome then
    handleResponse st m (m.id.getD "")
  else if m.type = some "event" ∧ m.event = some "agent" then
    handleAgent st m freshTaskId
  else (st, [])

/-! ### Outbound request registration paths -/

/-- Outcome of a logical call as seen by its immediate caller. -/
inductive CallOutcome
  | pending
  | failedNotConnected
  | threwNullAccess
deriving DecidableEq, Repr

/-- `sendToGateway`: reject immediately with `'Gateway not connected'` when
the handle is absent or not open (touching nothing), otherwise register a
placeholder run and a pending entry with a 60 s deadline and write the
`chat.send` frame. -/
def sendToGateway (st : ServerState) (message requestId taskId : String)
    (now : Nat) : ServerState × List OutFrame × CallOutcome :=
  if st.gatewayWs ≠ some true then (st, [], CallOutcome.failedNotConnected)
  else
    let st1 : ServerState :=
      { st with activeRuns := setEntry st.activeRuns requestId ⟨taskId, ""⟩ }
    let st2 : ServerState :=
      { st1 with pendingRequests :=
          setEntry st1.pendingRequests requestId ⟨SinkKind.gatewaySend, now + 60000⟩ }
    (st2,
     [chatSendFrame requestId (getSessionKey st.sessionKeySuffix) message],
     CallOutcome.pending)

/-- The `/api/chat` handler's send phase: registers the placeholder run, the
120 s timer and the pending entry unconditionally, then writes the frame via
the non-null assertion `gatewayWs!` — with no handle this throws a
`TypeError` (there is no connection check on this path), leaving the fresh
entries behind. -/
def apiChatSend (st : ServerState) (message requestId taskId : String)
    (now : Nat) : ServerState × List OutFrame × CallOutcome :=
  let st1 : ServerState :=
    { st with activeRuns := setEntry st.activeRuns requestId ⟨taskId, ""⟩ }
  let st2 : ServerState :=
    { st1 with pendingRequests :=
        setEntry st1.pendingRequests requestId ⟨SinkKind.apiChat, now + 120000⟩ }
  match st.gatewayWs with
  | none => (st2, [], CallOutcome.threwNullAccess)
  | some _ =>
    (st2,
     [chatSendFrame requestId (getSessionKey st.sessionKeySuffix) message],
     CallOutcome.pending)

/-- The `/api/send` handler: 503 when the handle is absent or not open;
otherwise registers the run and a pending entry with no-op sinks and a 120 s
cleanup timer, writes the frame, and answers with the task id at once. -/
def apiSendSetup (st : ServerState) (message requestId taskId : String)
    (now : Nat) : ServerState × List OutFrame × CallOutcome :=
  if st.gatewayWs ≠ some true then (st, [], CallOutcome.failedNotConnected)
  else
    let st1 : ServerState :=
      { st with activeRuns := setEntry st.activeRuns requestId ⟨taskId, ""⟩ }
    let st2 : ServerState :=
      { st1 with pendingRequests :=
          setEntry st1.pendingRequests requestId ⟨SinkKind.apiSend, now + 120000⟩ }
    (st2,
     [chatSendFrame requestId (getSessionKey st.sessionKeySuffix) message],
     CallOutcome.pending)

/-- The `/api/sessions` handler's registration: 503 when not connected, else
a pending entry with a 15 s deadline and a `sessions.list` frame. -/
def apiSessionsSetup (st : ServerState) (requestId : String) (now : Nat) :
    ServerState × List OutFrame × CallOutcome :=
  if st.gatewayWs ≠ some true then (st, [], CallOutcome.failedNotConnected)
  else
    ({ st with pendingRequests :=
        setEntry st.pendingRequests requestId ⟨SinkKind.apiSessions, now + 15000⟩ },
     [{ id := requestId, method := "sessions.list" }],
     CallOutcome.pending)

/-! ### Per-entry timeout callbacks

Each pending entry owns one timer; the timer exists exactly while the entry
is in the map, so a fire against an absent entry is modelled as a no-op
(that timer was cancelled by the response path or already consumed). -/

def fireTimeout (st : ServerState) (i : String) : ServerState × List Effect :=
  match findEntry st.pendingRequests i with
  | none => (st, [])
  | some pr =>
    let st1 : ServerState :=
      { st with pendingRequests := eraseEntry st.pendingRequests i }
    match pr.kind with
    | SinkKind.gatewaySend => (st1, [Effect.reject i "Gateway timeout"])
    | SinkKind.apiChat =>
      match findEntry st.activeRuns i with
      | some run =>
        if run.text ≠ "" then
          ({ st1 with activeRuns := eraseEntry st1.activeRuns i },
           [Effect.resolve i (ResValue.text run.text)])
        else (st1, [Effect.reject i "Timeout waiting for response"])
      | none => (st1, [Effect.reject i "Timeout waiting for response"])
    | SinkKind.apiSend => (st1, [])
    | SinkKind.apiSessions => (st1, [Effect.reject i "Timeout"])
    | SinkKind.apiHistory => (st1, [Effect.reject i "Timeout"])

/-! ### Dispatch traces

Inbound frames are processed one at a time; between frames, armed timers may
fire.  A trace interleaves the two. -/

inductive DispatchEvent
  | frame (m : GatewayMessage) (now : Nat) (freshTaskId : String)
  | timer (i : String)

def dispatchStep (st : ServerState) : DispatchEvent → ServerState × List Effect
  | DispatchEvent.frame m now f => handleGatewayMessage st m now f
  | DispatchEvent.timer i => fireTimeout st i

def runTrace (st : ServerState) : List DispatchEvent → ServerState × List Effect
  | [] => (st, [])
  | e :: es =>
    let r := dispatchStep st e
    let r2 := runTrace r.1 es
    (r2.1, r.2 ++ r2.2)

/-- An effect that fulfils the completion sink registered under `i`. -/
def sinkEffectFor (i : String) : Effect → Bool
  | Effect.resolve j _ => decide (j = i)
  | Effect.reject j _ => decide (j = i)
  | _ => false

def resolutionCount (effs : List Effect) (i : String) : Nat :=
  (effs.filter (sinkEffectFor i)).length

/-- Events that can consume the pending entry for `i`: its own timer, or an
inbound frame carrying `id = i` that is not short-circuited by the heartbeat
or challenge branches. -/
def isTrigger (i : String) : DispatchEvent → Bool
  | DispatchEvent.timer j => decide (j = i)
  | DispatchEvent.frame m _ _ =>
    truthy m.id && decide (m.id = some i) &&
    !(decide (m.type = some "event") &&
      (decide (m.event = some "tick") || decide (m.event = some "health"))) &&
    !(decide (m.type = some "event") && decide (m.event = some "connect.challenge"))

/-! ### Correlator step lemmas -/

theorem resolutionCount_append (a b : List Effect) (i : String) :
    resolutionCount (a ++ b) i = resolutionCount a i + resolutionCount b i := by
  simp [resolutionCount, List.filter_append]

theorem handleAgent_corr (st : ServerState) (m : GatewayMessage) (f i : String) :
    (handleAgent st m f).1.pendingRequests = st.pendingRequests ∧
    resolutionCount (handleAgent st m f).2 i = 0 := by
  unfold handleAgent
  dsimp only
  split
  · simp [resolutionCount]
  · split
    · simp [resolutionCount]
    · split
      · split <;> simp [resolutionCount, sinkEffectFor]
      · split
        · split <;> simp [resolutionCount, sinkEffectFor]
        · split <;> simp [resolutionCount, sinkEffectFor]

theorem handleResponse_pendingRequests (st : ServerState) (m : GatewayMessage) (i : String) :
    (handleResponse st m i).1.pendingRequests = eraseEntry st.pendingRequests i := by
  unfold handleResponse
  dsimp only
  split
  · rfl
  · split
    · split <;> rfl
    · rfl

theorem handleResponse_count_self (st : ServerState) (m : GatewayMessage) (i : String) :
    resolutionCount (handleResponse st m i).2 i = 1 := by
  unfold handleResponse
  dsimp only
  split
  · simp [resolutionCount, sinkEffectFor]
  · simp [resolutionCount, sinkEffectFor]

theorem handleResponse_count_other (st : ServerState) (m : GatewayMessage) (i i' : String)
    (h : i ≠ i') :
    resolutionCount (handleResponse st m i).2 i' = 0 := by
  unfold handleResponse
  dsimp only
  split
  · simp [resolutionCount, sinkEffectFor, h]
  · simp [resolutionCount, sinkEffectFor, h]

theorem fireTimeout_noop (st : ServerState) (i : String)
    (h : findEntry st.pendingRequests i = none) :
    fireTimeout st i = (st, []) := by
  unfold fireTimeout
  rw [h]

theorem fireTimeout_self (st : ServerState) (i : String) (pr : PendingRequest)
    (h : findEntry st.pendingRequests i = some pr) (hk : pr.kind ≠ SinkKind.apiSend) :
    findEntry (fireTimeout st i).1.pendingRequests i = none ∧
    resolutionCount (fireTimeout st i).2 i = 1 := by
  unfold fireTimeout
  rw [h]
  dsimp only
  cases hkk : pr.kind <;>
    simp [hkk, resolutionCount, sinkEffectFor, findEntry_eraseEntry] at hk ⊢
  split
  · split <;> simp [resolutionCount, sinkEffectFor, findEntry_eraseEntry]
  · simp [resolutionCount, sinkEffectFor, findEntry_eraseEntry]

theorem fireTimeout_other (st : ServerState) (i j : String) (hj : j ≠ i) :
    findEntry (fireTimeout st j).1.pendingRequests i = findEntry st.pendingRequests i ∧
    resolutionCount (fireTimeout st j).2 i = 0 := by
  unfold fireTimeout
  cases hfind : findEntry st.pendingRequests j with
  | none => simp [resolutionCount]
  | some pr =>
    dsimp only
    have hne : ¬ i = j := fun hh => hj hh.symm
    cases pr.kind <;>
      simp [resolutionCount, sinkEffectFor, findEntry_eraseEntry, hne, hj]
    split
    · split <;> simp [resolutionCount, sinkEffectFor, findEntry_eraseEntry, hne, hj]
    · simp [resolutionCount, sinkEffectFor, findEntry_eraseEntry, hne, hj]

theorem truthy_some_iff (o : Option String) :
    truthy o = true ↔ ∃ s, o = some s ∧ s ≠ "" := by
  cases o with
  | none => simp [truthy]
  | some s => simp [truthy]

theorem hgm_trigger_step (st : ServerState) (m : GatewayMessage) (now : Nat)
    (f i : String) (pr : PendingRequest)
    (hreg : findEntry st.pendingRequests i = some pr)
    (htr : isTrigger i (DispatchEvent.frame m now f) = true) :
    (handleGatewayMessage st m now f).1.pendingRequests = eraseEntry st.pendingRequests i ∧
    resolutionCount (handleGatewayMessage st m now f).2 i = 1 := by
  simp only [isTrigger, Bool.and_eq_true, Bool.not_eq_true', Bool.or_eq_false_iff,
    Bool.and_eq_false_iff, decide_eq_true_iff, decide_eq_false_iff_not] at htr
  obtain ⟨⟨⟨htruthy, hid⟩, htick⟩, hchal⟩ := htr
  have hnid : m.id.getD "" = i := by rw [hid]; rfl
  unfold handleGatewayMessage
  rw [if_neg, if_neg, if_pos, hnid]
  · exact ⟨handleResponse_pendingRequests st m i, handleResponse_count_self st m i⟩
  · rw [hnid, hreg]
    exact ⟨htruthy, rfl⟩
  · intro hc
    rcases hchal with h | h
    · exact h hc.1
    · exact h hc.2
  · intro hc
    rcases htick with h | h
    · exact h hc.1
    · rcases hc.2 with h2 | h2
      · rw [h2] at h; simp at h
      · rw [h2] at h; simp at h

theorem hgm_pending_step (st : ServerState) (m : GatewayMessage) (now : Nat)
    (f i : String)
    (hnotr : isTrigger i (DispatchEvent.frame m now f) = false) :
    findEntry (handleGatewayMessage st m now f).1.pendingRequests i =
      findEntry st.pendingRequests i ∧
    resolutionCount (handleGatewayMessage st m now f).2 i = 0 := by
  unfold handleGatewayMessage
  split
  · exact ⟨rfl, rfl⟩
  · split
    · split
      · exact ⟨rfl, by simp [resolutionCount, sinkEffectFor]⟩
      · exact ⟨rfl, rfl⟩
    · split
      · rename_i hnt hnc hguard
        obtain ⟨htruthy, hsome⟩ := hguard
        obtain ⟨j, hj, hjne⟩ := (truthy_some_iff m.id).mp htruthy
        have hgd : m.id.getD "" = j := by rw [hj]; rfl
        have hji : j ≠ i := by
          intro hc
          have htrig : isTrigger i (DispatchEvent.frame m now f) = true := by
            simp only [isTrigger, Bool.and_eq_true, decide_eq_true_iff]
            refine ⟨⟨⟨htruthy, by rw [hj, hc]⟩, ?_⟩, ?_⟩
            · simp only [Bool.not_eq_true', Bool.and_eq_false_iff]
              by_cases hty : m.type = some "event"
              · right
                simp only [Bool.or_eq_false_iff, decide_eq_false_iff_not]
                exact ⟨fun he => hnt ⟨hty, Or.inl he⟩, fun he => hnt ⟨hty, Or.inr he⟩⟩
              · left; simp [hty]
            · simp only [Bool.not_eq_true', Bool.and_eq_false_iff]
              by_cases hty : m.type = some "event"
              · right
                simp only [decide_eq_false_iff_not]
                exact fun he => hnc ⟨hty, he⟩
              · left; simp [hty]
          rw [htrig] at hnotr
          exact absurd hnotr (by simp)
        have hij : ¬ i = j := fun hc => hji hc.symm
        rw [hgd]
        constructor
        · rw [handleResponse_pendingRequests, findEntry_eraseEntry, if_neg hij]
        · exact handleResponse_count_other st m j i hji
      · split
        · exact (handleAgent_corr st m f i).imp (fun h => by rw [h]) id
        · exact ⟨rfl, rfl⟩

theorem hgm_absent_step (st : ServerState) (m : GatewayMessage) (now : Nat)
    (f i : String)
    (habs : findEntry st.pendingRequests i = none) :
    findEntry (handleGatewayMessage st m now f).1.pendingRequests i = none ∧
    resolutionCount (handleGatewayMessage st m now f).2 i = 0 := by
  unfold handleGatewayMessage
  split
  · exact ⟨habs, rfl⟩
  · split
    · split
      · exact ⟨habs, by simp [resolutionCount, sinkEffectFor]⟩
      · exact ⟨habs, rfl⟩
    · split
      · rename_i hguard
        obtain ⟨htruthy, hsome⟩ := hguard
        obtain ⟨j, hj, hjne⟩ := (truthy_some_iff m.id).mp htruthy
        have hgd : m.id.getD "" = j := by rw [hj]; rfl
        rw [hgd] at hsome ⊢
        have hji : j ≠ i := by
          intro hc
          rw [hc, habs] at hsome
          simp at hsome
        have hij : ¬ i = j := fun hc => hji hc.symm
        constructor
        · rw [handleResponse_pendingRequests, findEntry_eraseEntry, if_neg hij]
          exact habs
        · exact handleResponse_count_other st m j i hji
      · split
        · refine ⟨?_, (handleAgent_corr st m f i).2⟩
          rw [(handleAgent_corr st m f i).1]
          exact habs
        · exact ⟨habs, rfl⟩

theorem step_absent (st : ServerState) (e : DispatchEvent) (i : String)
    (habs : findEntry st.pendingRequests i = none) :
    findEntry (dispatchStep st e).1.pendingRequests i = none ∧
    resolutionCount (dispatchStep st e).2 i = 0 := by
  cases e with
  | frame m now f => exact hgm_absent_step st m now f i habs
  | timer j =>
    by_cases hji : j = i
    · subst hji
      rw [dispatchStep, fireTimeout_noop st j habs]
      exact ⟨habs, rfl⟩
    · have h := fireTimeout_other st i j hji
      rw [dispatchStep]
      exact ⟨by rw [h.1]; exact habs, h.2⟩

theorem trace_absent (i : String) :
    ∀ (evs : List DispatchEvent) (st : ServerState),
    findEntry st.pendingRequests i = none →
    findEntry (runTrace st evs).1.pendingRequests i = none ∧
    resolutionCount (runTrace st evs).2 i = 0 := by
  intro evs
  induction evs with
  | nil => intro st habs; exact ⟨habs, rfl⟩
  | cons e es ih =>
    intro st habs
    obtain ⟨h1, h2⟩ := step_absent st e i habs
    obtain ⟨h3, h4⟩ := ih (dispatchStep st e).1 h1
    refine ⟨h3, ?_⟩
    simp only [runTrace]
    rw [resolutionCount_append, h2, h4]

theorem trace_present (i : String) (pr : PendingRequest)
    (hk : pr.kind ≠ SinkKind.apiSend) :
    ∀ (evs : List DispatchEvent) (st : ServerState),
    findEntry st.pendingRequests i = some pr →
    (if evs.any (isTrigger i) then
        findEntry (runTrace st evs).1.pendingRequests i = none ∧
        resolutionCount (runTrace st evs).2 i = 1
     else
        findEntry (runTrace st evs).1.pendingRequests i = some pr ∧
        resolutionCount (runTrace st evs).2 i = 0) := by
  intro evs
  induction evs with
  | nil => intro st hreg; simp [runTrace, resolutionCount, hreg]
  | cons e es ih =>
    intro st hreg
    by_cases htr : isTrigger i e = true
    · have hstep :
          findEntry (dispatchStep st e).1.pendingRequests i = none ∧
          resolutionCount (dispatchStep st e).2 i = 1 := by
        cases e with
        | frame m now f =>
          obtain ⟨h1, h2⟩ := hgm_trigger_step st m now f i pr hreg htr
          refine ⟨?_, h2⟩
          rw [dispatchStep, h1, findEntry_eraseEntry, if_pos rfl]
        | timer j =>
          have hji : j = i := by simpa [isTrigger] using htr
          subst hji
          exact fireTimeout_self st j pr hreg hk
      obtain ⟨h1, h2⟩ := hstep
      obtain ⟨h3, h4⟩ := trace_absent i es (dispatchStep st e).1 h1
      have hany : (e :: es).any (isTrigger i) = true := by simp [htr]
      simp only [hany, if_pos, runTrace]
      exact ⟨h3, by rw [resolutionCount_append, h2, h4]⟩
    · have htr' : isTrigger i e = false := by simpa using htr
      have hstep :
          findEntry (dispatchStep st e).1.pendingRequests i = some pr ∧
          resolutionCount (dispatchStep st e).2 i = 0 := by
        cases e with
        | frame m now f =>
          obtain ⟨h1, h2⟩ := hgm_pending_step st m now f i htr'
          exact ⟨by rw [dispatchStep, h1]; exact hreg, h2⟩
        | timer j =>
          have hji : j ≠ i := by simpa [isTrigger] using htr'
          exact (fireTimeout_other st i j hji).imp
            (fun h => by rw [dispatchStep, h]; exact hreg) id
      obtain ⟨h1, h2⟩ := hstep
      have ihr := ih (dispatchStep st e).1 h1
      have hany : (e :: es).any (isTrigger i) = es.any (isTrigger i) := by
        simp [htr']
      rw [hany]
      by_cases hesany : es.any (isTrigger i) = true
      · rw [hesany] at ihr ⊢
        rw [if_pos rfl] at ihr ⊢
        refine ⟨ihr.1, ?_⟩
        simp only [runTrace]
        rw [resolutionCount_append, h2, ihr.2]
      · have hf : es.any (isTrigger i) = false := by simpa using hesany
        rw [hf] at ihr ⊢
        rw [if_neg (by simp)] at ihr ⊢
        refine ⟨ihr.1, ?_⟩
        simp only [runTrace]
        rw [resolutionCount_append, h2, ihr.2]

/-! ### Claim theorems -/

theorem res_frame_noop (st' : ServerState) (m : GatewayMessage) (now : Nat)
    (f j : String) (hty : m.type = some "res") (hid : m.id = some j)
    (habs : findEntry st'.pendingRequests j = none) :
    handleGatewayMessage st' m now f = (st', []) := by
  have h1 : ¬(m.type = some "event" ∧ (m.event = some "tick" ∨ m.event = some "health")) := by
    intro hc
    rw [hty] at hc
    simp at hc
  have h2 : ¬(m.type = some "event" ∧ m.event = some "connect.challenge") := by
    intro hc
    rw [hty] at hc
    simp at hc
  have h3 : ¬(truthy m.id = true ∧
      (findEntry st'.pendingRequests (m.id.getD "")).isSome = true) := by
    intro hc
    rw [hid] at hc
    simp [habs] at hc
  have h4 : ¬(m.type = some "event" ∧ m.event = some "agent") := by
    intro hc
    rw [hty] at hc
    simp at hc
  unfold handleGatewayMessage
  rw [if_neg h1, if_neg h2, if_neg h3, if_neg h4]

/-- C1: a pending request registered under a request id is resolved exactly
once along any dispatch trace — by the first matching inbound frame or by its
own timer, whichever comes first; the consuming step removes the entry (and
with it the armed timer), an unconsumed entry keeps an armed timer whose fire
resolves it, and a response frame for an already-removed id leaves the state
untouched and produces no effects. -/
theorem c1_pending_resolved_exactly_once
    (st : ServerState) (i : String) (pr : PendingRequest)
    (hreg : findEntry st.pendingRequests i = some pr)
    (hk : pr.kind ≠ SinkKind.apiSend)
    (evs : List DispatchEvent) :
    (resolutionCount (runTrace st evs).2 i =
       if evs.any (isTrigger i) then 1 else 0) ∧
    (evs.any (isTrigger i) = true →
       findEntry (runTrace st evs).1.pendingRequests i = none) ∧
    (evs.any (isTrigger i) = false →
       findEntry (runTrace st evs).1.pendingRequests i = some pr ∧
       resolutionCount (fireTimeout (runTrace st evs).1 i).2 i = 1) ∧
    (∀ (st' : ServerState) (m : GatewayMessage) (now : Nat) (f j : String),
       m.type = some "res" → m.id = some j →
       findEntry st'.pendingRequests j = none →
       handleGatewayMessage st' m now f = (st', [])) := by
  by_cases hany : evs.any (isTrigger i) = true
  · have H := trace_present i pr hk evs st hreg
    rw [hany, if_pos rfl] at H
    refine ⟨?_, fun _ => H.1, fun hc => absurd hany (by rw [hc]; simp),
      fun st' m now f j => res_frame_noop st' m now f j⟩
    rw [hany, if_pos rfl]
    exact H.2
  · have hf : evs.any (isTrigger i) = false := by simpa using hany
    have H := trace_present i pr hk evs st hreg
    rw [hf, if_neg (by simp)] at H
    refine ⟨?_, fun hc => absurd hc hany, fun _ => ⟨H.1, ?_⟩,
      fun st' m now f j => res_frame_noop st' m now f j⟩
    · rw [hf, if_neg (by simp)]
      exact H.2
    · exact (fireTimeout_self (runTrace st evs).1 i pr H.1 hk).2

def c1WitnessState : ServerState :=
  { gatewayWs := some true,
    pendingRequests := [("r1", { kind := SinkKind.gatewaySend, deadline := 60000 })] }

theorem c1_witness :
    (findEntry c1WitnessState.pendingRequests "r1" =
       some { kind := SinkKind.gatewaySend, deadline := 60000 }) ∧
    ({ kind := SinkKind.gatewaySend, deadline := 60000 } : PendingRequest).kind ≠
       SinkKind.apiSend ∧
    ((resolutionCount (runTrace c1WitnessState [DispatchEvent.timer "r1"]).2 "r1" =
        if [DispatchEvent.timer "r1"].any (isTrigger "r1") then 1 else 0) ∧
     ([DispatchEvent.timer "r1"].any (isTrigger "r1") = true →
        findEntry (runTrace c1WitnessState
          [DispatchEvent.timer "r1"]).1.pendingRequests "r1" = none) ∧
     ([DispatchEvent.timer "r1"].any (isTrigger "r1") = false →
        findEntry (runTrace c1WitnessState
          [DispatchEvent.timer "r1"]).1.pendingRequests "r1" =
            some { kind := SinkKind.gatewaySend, deadline := 60000 } ∧
        resolutionCount (fireTimeout (runTrace c1WitnessState
          [DispatchEvent.timer "r1"]).1 "r1").2 "r1" = 1) ∧
     (∀ (st' : ServerState) (m : GatewayMessage) (now : Nat) (f j : String),
        m.type = some "res" → m.id = some j →
        findEntry st'.pendingRequests j = none →
        handleGatewayMessage st' m now f = (st', []))) :=
  ⟨rfl, by decide,
   c1_pending_resolved_exactly_once c1WitnessState "r1"
     { kind := SinkKind.gatewaySend, deadline := 60000 } rfl (by decide)
     [DispatchEvent.timer "r1"]⟩

/-- C2 counterexample: a pending `/api/chat` request whose run has
accumulated streamed text is fulfilled with that text as a success value by
its own timeout callback — the timeout path does not always fail the
awaitable with a timeout error. -/
def c2State : ServerState :=
  { gatewayWs := some true,
    pendingRequests := [("r1", { kind := SinkKind.apiChat, deadline := 120000 })],
    activeRuns := [("r1", { taskId := "t1", text := "Hello" })] }

theorem c2_counterexample :
    (fireTimeout c2State "r1").2 = [Effect.resolve "r1" (ResValue.text "Hello")] ∧
    findEntry (fireTimeout c2State "r1").1.pendingRequests "r1" = none := by
  constructor <;> rfl

/-- C2 amended: on deadline expiry the entry is always removed from the
pending map; the `sendToGateway`, `/api/sessions` and history timeouts
reject with a timeout error, the `/api/chat` timeout resolves successfully
with the accumulated streamed text when that text is non-empty and rejects
with a timeout error otherwise, and the `/api/send` timeout fulfils nothing. -/
theorem c2_timeout_behaviour (st : ServerState) (i : String) (pr : PendingRequest)
    (hreg : findEntry st.pendingRequests i = some pr) :
    findEntry (fireTimeout st i).1.pendingRequests i = none ∧
    (fireTimeout st i).2 =
      (match pr.kind with
       | SinkKind.gatewaySend => [Effect.reject i "Gateway timeout"]
       | SinkKind.apiChat =>
         match findEntry st.activeRuns i with
         | some run =>
           if run.text ≠ "" then [Effect.resolve i (ResValue.text run.text)]
           else [Effect.reject i "Timeout waiting for response"]
         | none => [Effect.reject i "Timeout waiting for response"]
       | SinkKind.apiSend => []
       | SinkKind.apiSessions => [Effect.reject i "Timeout"]
       | SinkKind.apiHistory => [Effect.reject i "Timeout"]) := by
  unfold fireTimeout
  rw [hreg]
  dsimp only
  cases pr.kind <;>
    simp [findEntry_eraseEntry]
  split
  · split <;> simp [findEntry_eraseEntry]
  · simp [findEntry_eraseEntry]

theorem c2_witness :
    (findEntry c2State.pendingRequests "r1" =
       some { kind := SinkKind.apiChat, deadline := 120000 }) ∧
    (findEntry (fireTimeout c2State "r1").1.pendingRequests "r1" = none ∧
     (fireTimeout c2State "r1").2 =
       (match ({ kind := SinkKind.apiChat, deadline := 120000 } : PendingRequest).kind with
        | SinkKind.gatewaySend => [Effect.reject "r1" "Gateway timeout"]
        | SinkKind.apiChat =>
          match findEntry c2State.activeRuns "r1" with
          | some run =>
            if run.text ≠ "" then [Effect.resolve "r1" (ResValue.text run.text)]
            else [Effect.reject "r1" "Timeout waiting for response"]
          | none => [Effect.reject "r1" "Timeout waiting for response"]
        | SinkKind.apiSend => []
        | SinkKind.apiSessions => [Effect.reject "r1" "Timeout"]
        | SinkKind.apiHistory => [Effect.reject "r1" "Timeout"])) :=
  ⟨rfl, c2_timeout_behaviour c2State "r1"
    { kind := SinkKind.apiChat, deadline := 120000 } rfl⟩

/-- C3 counterexample: a `chat.send` issued through the `/api/chat` handler
while Disconnected does not fail with the "not connected" error — the
handler performs no connection check, so the unguarded `gatewayWs!` access
throws, and the fresh pending entry and placeholder run are left behind
(no frame is written). -/
def c3State : ServerState := { gatewayWs := none }

theorem c3_counterexample :
    (apiChatSend c3State "hi" "r1" "t1" 0).2.2 = CallOutcome.threwNullAccess ∧
    CallOutcome.threwNullAccess ≠ CallOutcome.failedNotConnected ∧
    (apiChatSend c3State "hi" "r1" "t1" 0).2.1 = [] ∧
    findEntry (apiChatSend c3State "hi" "r1" "t1" 0).1.pendingRequests "r1" =
      some { kind := SinkKind.apiChat, deadline := 120000 } := by
  refine ⟨rfl, by decide, rfl, rfl⟩

/-- C3 amended: `sendToGateway` (and `/api/send`) fail immediately with the
"Gateway not connected" error, write no frame and leave the state untouched
whenever the socket is not open, and write exactly one `chat.send` frame when
it is open — nothing is ever queued; the `/api/chat` handler alone performs
no connection check: with no handle it throws a null-access `TypeError`
(writing no frame) after having already registered its pending entry and
placeholder run. -/
theorem c3_not_connected_fails_fast (st : ServerState)
    (message requestId taskId : String) (now : Nat) :
    (st.gatewayWs ≠ some true →
       sendToGateway st message requestId taskId now =
         (st, [], CallOutcome.failedNotConnected) ∧
       apiSendSetup st message requestId taskId now =
         (st, [], CallOutcome.failedNotConnected)) ∧
    (st.gatewayWs = some true →
       (sendToGateway st message requestId taskId now).2.1 =
         [chatSendFrame requestId (getSessionKey st.sessionKeySuffix) message] ∧
       (sendToGateway st message requestId taskId now).2.2 = CallOutcome.pending) ∧
    (st.gatewayWs = none →
       (apiChatSend st message requestId taskId now).2.1 = [] ∧
       (apiChatSend st message requestId taskId now).2.2 =
         CallOutcome.threwNullAccess) := by
  refine ⟨fun h => ?_, fun h => ?_, fun h => ?_⟩
  · unfold sendToGateway apiSendSetup
    rw [if_pos h, if_pos h]
    exact ⟨rfl, rfl⟩
  · unfold sendToGateway
    rw [if_neg (by simp [h])]
    exact ⟨rfl, rfl⟩
  · unfold apiChatSend
    rw [h]
    exact ⟨rfl, rfl⟩

theorem c3_witness :
    ((c3State.gatewayWs ≠ some true) ∧ (c3State.gatewayWs = none)) ∧
    ((c3State.gatewayWs ≠ some true →
        sendToGateway c3State "hi" "r1" "t1" 0 =
          (c3State, [], CallOutcome.failedNotConnected) ∧
        apiSendSetup c3State "hi" "r1" "t1" 0 =
          (c3State, [], CallOutcome.failedNotConnected)) ∧
     (c3State.gatewayWs = some true →
        (sendToGateway c3State "hi" "r1" "t1" 0).2.1 =
          [chatSendFrame "r1" (getSessionKey c3State.sessionKeySuffix) "hi"] ∧
        (sendToGateway c3State "hi" "r1" "t1" 0).2.2 = CallOutcome.pending) ∧
     (c3State.gatewayWs = none →
        (apiChatSend c3State "hi" "r1" "t1" 0).2.1 = [] ∧
        (apiChatSend c3State "hi" "r1" "t1" 0).2.2 =
          CallOutcome.threwNullAccess)) :=
  ⟨⟨by decide, rfl⟩, c3_not_connected_fails_fast c3State "hi" "r1" "t1" 0⟩

/-! ### Agent-event helpers and scenario fixtures -/

def agentEventMsg (p : Payload) : GatewayMessage :=
  { type := some "event", event := some "agent", payload := some p }

def assistantTextPayload (rid s : String) : Payload :=
  { runId := some rid, stream := some "assistant", data := some { text := some s } }

def lifecycleEndPayload (rid : String) : Payload :=
  { runId := some rid, stream := some "lifecycle", data := some { phase := some "end" } }

def lifecycleStartPayload (rid sk : String) : Payload :=
  { runId := some rid, stream := some "lifecycle",
    data := some { phase := some "start" }, sessionKey := some sk }

theorem assistant_update (st : ServerState) (rid s : String) (run : ActiveRun)
    (now : Nat) (f : String)
    (hrun : findEntry st.activeRuns rid = some run) (hrid : rid ≠ "") (hs : s ≠ "") :
    handleGatewayMessage st (agentEventMsg (assistantTextPayload rid s)) now f =
      ({ st with activeRuns := setEntry st.activeRuns rid { run with text := s } }, []) := by
  unfold handleGatewayMessage
  rw [if_neg (by simp [agentEventMsg]), if_neg (by simp [agentEventMsg]),
    if_neg (by simp [agentEventMsg, truthy]), if_pos (by simp [agentEventMsg])]
  unfold handleAgent
  dsimp only [agentEventMsg, assistantTextPayload, Option.getD]
  rw [if_neg (by simp [truthy, hrid]), hrun]
  dsimp only
  rw [if_pos ⟨rfl, by simp [truthy, hs]⟩]
  simp

def connectedState : ServerState := { gatewayWs := some true }

def c4Start : ServerState := (sendToGateway connectedState "hi" "req1" "task1" 0).1

def c4Ack : GatewayMessage :=
  { type := some "res", id := some "req1", ok := true,
    payload := some { runId := some "R1" } }

def c4Events : List DispatchEvent :=
  [DispatchEvent.frame c4Ack 1 "f1",
   DispatchEvent.frame (agentEventMsg (assistantTextPayload "R1" "Hel")) 2 "f2",
   DispatchEvent.frame (agentEventMsg (assistantTextPayload "R1" "Hello")) 3 "f3",
   DispatchEvent.frame (agentEventMsg (lifecycleEndPayload "R1")) 4 "f4"]

def isBroadcastEffect : Effect → Bool
  | Effect.broadcast _ _ => true
  | _ => false

/-- C4: an assistant-content event replaces the tracked run's accumulated
text with the event's payload (latest snapshot, independent of the previous
text), and in the ack/"Hel"/"Hello"/end scenario the broadcaster receives
exactly one result, carrying the run's task id and the latest snapshot
"Hello", after which the run is deleted. -/
theorem c4_latest_wins_single_result :
    (∀ (st : ServerState) (rid s : String) (run : ActiveRun) (now : Nat) (f : String),
       findEntry st.activeRuns rid = some run → rid ≠ "" → s ≠ "" →
       handleGatewayMessage st (agentEventMsg (assistantTextPayload rid s)) now f =
         ({ st with activeRuns := setEntry st.activeRuns rid { run with text := s } }, [])) ∧
    ((runTrace c4Start c4Events).2.filter isBroadcastEffect =
       [Effect.broadcast "task1" "Hello"]) ∧
    findEntry (runTrace c4Start c4Events).1.activeRuns "R1" = none :=
  ⟨assistant_update, by decide, by decide⟩

def c4RunState : ServerState :=
  { activeRuns := [("R1", { taskId := "task1", text := "Hel" })] }

theorem c4_witness :
    (findEntry c4RunState.activeRuns "R1" = some { taskId := "task1", text := "Hel" }) ∧
    ("R1" : String) ≠ "" ∧ ("Hello" : String) ≠ "" ∧
    handleGatewayMessage c4RunState (agentEventMsg (assistantTextPayload "R1" "Hello")) 3 "f" =
      ({ c4RunState with
          activeRuns :=
            setEntry c4RunState.activeRuns "R1" { taskId := "task1", text := "Hello" } },
       []) :=
  ⟨rfl, by decide, by decide,
   c4_latest_wins_single_result.1 c4RunState "R1" "Hello"
     { taskId := "task1", text := "Hel" } 3 "f" rfl (by decide) (by decide)⟩

/-- C5: a successful response to a pending request whose payload carries a
run id re-keys the placeholder run atomically: the request-id entry leaves
the run map, the same run object (same task id, same text) is stored under
the run id, and a subsequent assistant streaming event for that run id finds
and updates the original placeholder. -/
theorem c5_response_rekeys_placeholder (st : ServerState) (m : GatewayMessage)
    (now : Nat) (f i r : String) (pr : PendingRequest) (run : ActiveRun)
    (hpend : findEntry st.pendingRequests i = some pr)
    (hrun : findEntry st.activeRuns i = some run)
    (hid : m.id = some i) (hi : i ≠ "")
    (herr : truthy m.error = false)
    (hr : (m.result <|> m.payload).bind Payload.runId = some r)
    (hrne : r ≠ "") (hri : r ≠ i)
    (hnt : ¬(m.type = some "event" ∧ (m.event = some "tick" ∨ m.event = some "health")))
    (hnc : ¬(m.type = some "event" ∧ m.event = some "connect.challenge")) :
    findEntry (handleGatewayMessage st m now f).1.activeRuns i = none ∧
    findEntry (handleGatewayMessage st m now f).1.activeRuns r = some run ∧
    (∀ s, s ≠ "" →
       findEntry (handleGatewayMessage (handleGatewayMessage st m now f).1
           (agentEventMsg (assistantTextPayload r s)) now f).1.activeRuns r =
         some { run with text := s }) := by
  have hstep : handleGatewayMessage st m now f = handleResponse st m i := by
    unfold handleGatewayMessage
    rw [if_neg hnt, if_neg hnc, if_pos]
    · rw [hid]
      rfl
    · constructor
      · rw [hid]
        simp [truthy, hi]
      · show (findEntry st.pendingRequests (m.id.getD "")).isSome = true
        rw [hid]
        show (findEntry st.pendingRequests i).isSome = true
        rw [hpend]
        rfl
  have hstate : (handleGatewayMessage st m now f).1.activeRuns =
      setEntry (eraseEntry st.activeRuns i) r run := by
    rw [hstep]
    unfold handleResponse
    dsimp only
    rw [if_neg (by rw [herr]; simp), hr, hrun]
    dsimp only
    rw [if_pos hrne]
  have h1 : findEntry (handleGatewayMessage st m now f).1.activeRuns i = none := by
    rw [hstate, findEntry_setEntry, if_neg (fun hc => hri hc.symm),
      findEntry_eraseEntry, if_pos rfl]
  have h2 : findEntry (handleGatewayMessage st m now f).1.activeRuns r = some run := by
    rw [hstate, findEntry_setEntry, if_pos rfl]
  refine ⟨h1, h2, ?_⟩
  intro s hs
  rw [assistant_update (handleGatewayMessage st m now f).1 r s run now f h2 hrne hs]
  dsimp only
  rw [findEntry_setEntry, if_pos rfl]

def c5State : ServerState :=
  { gatewayWs := some true,
    pendingRequests := [("req1", { kind := SinkKind.gatewaySend, deadline := 60000 })],
    activeRuns := [("req1", { taskId := "task1", text := "" })] }

theorem c5_witness :
    (findEntry c5State.pendingRequests "req1" =
       some { kind := SinkKind.gatewaySend, deadline := 60000 }) ∧
    (findEntry c5State.activeRuns "req1" = some { taskId := "task1", text := "" }) ∧
    (findEntry (handleGatewayMessage c5State c4Ack 1 "f").1.activeRuns "req1" = none ∧
     findEntry (handleGatewayMessage c5State c4Ack 1 "f").1.activeRuns "R1" =
       some { taskId := "task1", text := "" } ∧
     (∀ s, s ≠ "" →
        findEntry (handleGatewayMessage (handleGatewayMessage c5State c4Ack 1 "f").1
            (agentEventMsg (assistantTextPayload "R1" s)) 1 "f").1.activeRuns "R1" =
          some { taskId := "task1", text := s })) :=
  ⟨rfl, rfl,
   c5_response_rekeys_placeholder c5State c4Ack 1 "f" "req1" "R1"
     { kind := SinkKind.gatewaySend, deadline := 60000 }
     { taskId := "task1", text := "" }
     rfl rfl rfl (by decide) rfl rfl (by decide) (by decide)
     (by decide) (by decide)⟩

theorem normalizedSessionKey_ne_empty (n : Nat) : normalizedSessionKey n ≠ "" := by
  unfold normalizedSessionKey
  intro h
  have hd := congrArg String.data h
  rw [String.data_append] at hd
  simp at hd

/-- C6: an agent streaming event naming a run id with no local entry creates
a fresh run (with the supplied fresh task id and empty text) exactly when the
event's declared `sessionKey` equals the normalized current-generation
session key, its stream is `lifecycle` and its phase is `start`; any other
event for an unknown run id leaves the state unchanged and produces no
effects. -/
theorem c6_unknown_run_admission (st : ServerState) (p : Payload) (now : Nat)
    (f rid : String)
    (hrid : p.runId = some rid) (hrne : rid ≠ "")
    (habs : findEntry st.activeRuns rid = none) :
    (p.sessionKey = some (normalizedSessionKey st.sessionKeySuffix) ∧
     p.stream = some "lifecycle" ∧ (p.data.getD {}).phase = some "start" →
       handleGatewayMessage st (agentEventMsg p) now f =
         ({ st with activeRuns :=
             setEntry st.activeRuns rid { taskId := f, text := "" } }, [])) ∧
    (¬(p.sessionKey = some (normalizedSessionKey st.sessionKeySuffix) ∧
       p.stream = some "lifecycle" ∧ (p.data.getD {}).phase = some "start") →
       handleGatewayMessage st (agentEventMsg p) now f = (st, [])) := by
  have hguards : handleGatewayMessage st (agentEventMsg p) now f =
      handleAgent st (agentEventMsg p) f := by
    unfold handleGatewayMessage
    rw [if_neg (by simp [agentEventMsg]), if_neg (by simp [agentEventMsg]),
      if_neg (by simp [agentEventMsg, truthy]), if_pos (by simp [agentEventMsg])]
  constructor
  · rintro ⟨hsk, hstream, hphase⟩
    rw [hguards]
    unfold handleAgent
    simp only [agentEventMsg, Option.getD_some, hrid]
    rw [if_neg (by simp [truthy, hrne])]
    rw [habs]
    rw [if_pos ⟨by rw [hsk]; simp [truthy, normalizedSessionKey_ne_empty],
      hsk, hstream, hphase⟩]
    dsimp only
    rw [if_neg (by rw [hstream]; simp), if_neg (by rw [hphase]; simp)]
    simp
  · intro hneg
    rw [hguards]
    unfold handleAgent
    simp only [agentEventMsg, Option.getD_some, hrid]
    rw [if_neg (by simp [truthy, hrne])]
    rw [habs]
    rw [if_neg (fun hc => hneg ⟨hc.2.1, hc.2.2.1, hc.2.2.2⟩)]

def c6Payload : Payload := lifecycleStartPayload "R9" (normalizedSessionKey 0)

theorem c6_witness :
    (c6Payload.runId = some "R9" ∧ ("R9" : String) ≠ "" ∧
     findEntry connectedState.activeRuns "R9" = none) ∧
    ((c6Payload.sessionKey = some (normalizedSessionKey connectedState.sessionKeySuffix) ∧
      c6Payload.stream = some "lifecycle" ∧
      (c6Payload.data.getD {}).phase = some "start" →
        handleGatewayMessage connectedState (agentEventMsg c6Payload) 0 "fresh1" =
          ({ connectedState with
              activeRuns :=
                setEntry connectedState.activeRuns "R9" { taskId := "fresh1", text := "" } },
           [])) ∧
     (¬(c6Payload.sessionKey = some (normalizedSessionKey connectedState.sessionKeySuffix) ∧
        c6Payload.stream = some "lifecycle" ∧
        (c6Payload.data.getD {}).phase = some "start") →
        handleGatewayMessage connectedState (agentEventMsg c6Payload) 0 "fresh1" =
          (connectedState, []))) :=
  ⟨⟨rfl, by decide, rfl⟩,
   c6_unknown_run_admission connectedState c6Payload 0 "fresh1" "R9" rfl (by decide) rfl⟩

/-! ### SessionKeyspace facts -/

theorem getSessionKey_injective : ∀ a b : Nat, getSessionKey a = getSessionKey b → a = b := by
  intro a b h
  unfold getSessionKey at h
  by_cases ha : a = 0 <;> by_cases hb : b = 0
  · omega
  · rw [if_pos ha, if_neg hb] at h
    exfalso
    have hlen := congrArg String.length h
    rw [String.length_append, String.length_append] at hlen
    have hp := natRepr_length_pos b
    have hone : (":" : String).length = 1 := rfl
    omega
  · rw [if_neg ha, if_pos hb] at h
    exfalso
    have hlen := congrArg String.length h
    rw [String.length_append, String.length_append] at hlen
    have hp := natRepr_length_pos a
    have hone : (":" : String).length = 1 := rfl
    omega
  · rw [if_neg ha, if_neg hb] at h
    have hd := congrArg String.data h
    rw [String.data_append, String.data_append, String.data_append,
      String.data_append] at hd
    rw [List.append_assoc, List.append_assoc] at hd
    have hcancel := List.append_cancel_left hd
    have hcancel2 := List.append_cancel_left hcancel
    exact natRepr_injective a b (String.ext hcancel2)

/-- C7: resetting the session yields a key distinct from the key of every
prior generation (the base key for suffix 0, the suffixed key otherwise),
the reset response reports the new generation's key, and every run tracked
before the reset is gone from the run map afterwards. -/
theorem c7_reset_fresh_generation (st : ServerState) :
    (∀ g, g ≤ st.sessionKeySuffix →
       getSessionKey (resetSession st).1.sessionKeySuffix ≠ getSessionKey g) ∧
    (resetSession st).2 = getSessionKey (resetSession st).1.sessionKeySuffix ∧
    (∀ (r : String) (run : ActiveRun), findEntry st.activeRuns r = some run →
       findEntry (resetSession st).1.activeRuns r = none) := by
  refine ⟨?_, rfl, ?_⟩
  · intro g hg heq
    have hinj := getSessionKey_injective _ _ heq
    simp [resetSession] at hinj
    omega
  · intro r run _
    rfl

def c7State : ServerState :=
  { sessionKeySuffix := 2, activeRuns := [("R1", { taskId := "t", text := "x" })] }

theorem c7_witness :
    (0 ≤ c7State.sessionKeySuffix ∧
     findEntry c7State.activeRuns "R1" = some { taskId := "t", text := "x" }) ∧
    getSessionKey (resetSession c7State).1.sessionKeySuffix ≠ getSessionKey 0 ∧
    findEntry (resetSession c7State).1.activeRuns "R1" = none :=
  ⟨⟨by decide, rfl⟩,
   (c7_reset_fresh_generation c7State).1 0 (by decide),
   (c7_reset_fresh_generation c7State).2.2 "R1" { taskId := "t", text := "x" } rfl⟩

/-- C8 counterexample: a transport error alone does not discard the handle
and schedules no reconnect — the error handler only clears the connecting
flag; discard and the 5 s reconnect happen on the close path. -/
def c8State : ServerState := { gatewayWs := some true, isConnecting := true }

theorem c8_counterexample :
    (onGatewayError c8State).1.gatewayWs = some true ∧
    (onGatewayError c8State).2 = [] :=
  ⟨rfl, rfl⟩

/-- C8 amended: on transport close the handle is nulled and a reconnect is
scheduled after the fixed 5000 ms delay, and a connect-time exception also
schedules the 5000 ms reconnect; a transport error by itself only clears the
connecting flag — the handle survives and no reconnect is scheduled until
the accompanying close event fires. -/
theorem c8_close_schedules_reconnect (st : ServerState) :
    onGatewayClose st =
      ({ st with gatewayWs := none, isConnecting := false },
       [Effect.scheduleReconnect 5000]) ∧
    onConnectException st =
      ({ st with isConnecting := false }, [Effect.scheduleReconnect 5000]) ∧
    onGatewayError st = ({ st with isConnecting := false }, []) :=
  ⟨rfl, rfl, rfl⟩

/-- C9 counterexample: publishing with one non-open listener and one open
listener delivers the serialized event to the open listener only, while the
non-open listener is skipped but remains in the listener set — publish does
not remove it. -/
def c9State : ServerState :=
  { wsClients := [{ cid := 1, isOpen := false }, { cid := 2, isOpen := true }] }

theorem c9_counterexample :
    (publishResult c9State "t1" "done").2 = [(2, serializeResult "t1" "done")] ∧
    (publishResult c9State "t1" "done").1.wsClients =
      [{ cid := 1, isOpen := false }, { cid := 2, isOpen := true }] :=
  ⟨rfl, rfl⟩

/-- C9 amended: publish serializes the event once and writes those same
bytes to exactly the currently-open listeners; a listener whose socket is
not open is skipped without interrupting delivery to the rest, and the
listener set is not modified by publish — listeners leave the set only
through their own close handler. -/
theorem c9_publish_skips_failed_listener (st : ServerState) (taskId text : String) :
    (publishResult st taskId text).1 = st ∧
    (publishResult st taskId text).2 =
      st.wsClients.filterMap (fun c =>
        if c.isOpen then some (c.cid, serializeResult taskId text) else none) ∧
    (∀ (c : Client) (cs : List Client) (data : String),
       broadcastToClients (c :: cs) data =
         (if c.isOpen then [(c.cid, data)] else []) ++ broadcastToClients cs data) ∧
    (∀ c : Client, onClientClose st c =
       { st with wsClients := st.wsClients.filter (fun c' => decide (c' ≠ c)) }) := by
  refine ⟨rfl, rfl, ?_, fun c => rfl⟩
  intro c cs data
  by_cases hc : c.isOpen <;> simp [broadcastToClients, hc]

/-- C10: the reset handler mutates only the suffix counter and the run map
(the pending map, the gateway handle, the connecting flag and the listener
set are untouched), so a request in flight across the reset keeps its entry
(with its original deadline) and is still resolved exactly once, by a
matching response frame or its own timer, on the same schedule as before. -/
theorem c10_reset_leaves_pending_intact (st : ServerState) :
    (resetSession st).1.pendingRequests = st.pendingRequests ∧
    (resetSession st).1.gatewayWs = st.gatewayWs ∧
    (resetSession st).1.isConnecting = st.isConnecting ∧
    (resetSession st).1.wsClients = st.wsClients ∧
    (resetSession st).1.sessionKeySuffix = st.sessionKeySuffix + 1 ∧
    (resetSession st).1.activeRuns = [] ∧
    (∀ (i : String) (pr : PendingRequest) (evs : List DispatchEvent),
       findEntry st.pendingRequests i = some pr →
       pr.kind ≠ SinkKind.apiSend →
       findEntry (resetSession st).1.pendingRequests i = some pr ∧
       resolutionCount (runTrace (resetSession st).1 evs).2 i =
         (if evs.any (isTrigger i) then 1 else 0)) := by
  refine ⟨rfl, rfl, rfl, rfl, rfl, rfl, ?_⟩
  intro i pr evs hreg hk
  have hreg' : findEntry (resetSession st).1.pendingRequests i = some pr := hreg
  refine ⟨hreg', ?_⟩
  have H := trace_present i pr hk evs (resetSession st).1 hreg'
  by_cases hany : evs.any (isTrigger i) = true
  · rw [hany, if_pos rfl] at H ⊢
    exact H.2
  · have hf : evs.any (isTrigger i) = false := by simpa using hany
    rw [hf, if_neg (by simp)] at H ⊢
    exact H.2

def c10State : ServerState :=
  { gatewayWs := some true, sessionKeySuffix := 1,
    pendingRequests := [("r7", { kind := SinkKind.gatewaySend, deadline := 60000 })],
    activeRuns := [("RR", { taskId := "tt", text := "zz" })] }

theorem c10_witness :
    (findEntry c10State.pendingRequests "r7" =
       some { kind := SinkKind.gatewaySend, deadline := 60000 } ∧
     ({ kind := SinkKind.gatewaySend, deadline := 60000 } : PendingRequest).kind ≠
       SinkKind.apiSend) ∧
    (findEntry (resetSession c10State).1.pendingRequests "r7" =
       some { kind := SinkKind.gatewaySend, deadline := 60000 } ∧
     resolutionCount
       (runTrace (resetSession c10State).1 [DispatchEvent.timer "r7"]).2 "r7" =
       (if [DispatchEvent.timer "r7"].any (isTrigger "r7") then 1 else 0)) :=
  ⟨⟨rfl, by decide⟩,
   (c10_reset_leaves_pending_intact c10State).2.2.2.2.2.2 "r7"
     { kind := SinkKind.gatewaySend, deadline := 60000 }
     [DispatchEvent.timer "r7"] rfl (by decide)⟩
